import Mathlib

set_option maxRecDepth 20000

/- Shallow embedding of the Endpoint Rotation and Fallback Engine from
   src/src/services/enhanced_api_rotation_manager.py.

   Modelling conventions:
   - Time is a Nat counting seconds; every call of datetime.now() inside one
     engine operation is modelled as a single explicit parameter now.
     timedelta(minutes=1) is 60, the health-check interval is 300 seconds.
   - The three parallel dicts self.apis, self.current_api_index and
     self.last_health_check share the same key set after initialization
     (lines 62-101 and 337-339 of the source), so they are bundled into one
     SGroup record per service key; the manager state is an association list
     from service names to Groups plus the immutable fallback chains.
   - Python list indexing raises on an out-of-range index.  The only such
     access reachable here is apis[start_index] in get_active_api; the
     embedding returns (none, state) on that branch, and every theorem that
     depends on the scan carries the reachable-state bound cursor < length,
     under which the branch is dead.
   - The detached recovery thread body of _schedule_api_recovery is embedded
     as the separate operation recoverApi, applied at its fire time. -/

inductive APIStatus where
  | ACTIVE
  | RATE_LIMITED
  | ERROR
  | OFFLINE
deriving DecidableEq

structure APIEndpoint where
  name : String
  api_key : String
  base_url : String
  status : APIStatus := APIStatus.ACTIVE
  last_used : Option Nat := none
  error_count : Nat := 0
  rate_limit_reset : Option Nat := none
  requests_made : Nat := 0
  max_requests_per_minute : Nat := 60
deriving DecidableEq

def dummyEndpoint : APIEndpoint :=
  { name := "", api_key := "", base_url := "" }

structure SGroup where
  apis : List APIEndpoint
  cursor : Nat
  lastCheck : Option Nat
deriving DecidableEq

structure ManagerState where
  groups : List (String × SGroup)
  chains : List (String × List (List String))
deriving DecidableEq

/- _is_api_available (source lines 439-454).  Python mutates the endpoint in
   place on the lazy RATE_LIMITED expiry path; the embedding returns the pair
   (result, updated endpoint).  Note that this path does not clear
   rate_limit_reset. -/
def isApiAvailable (now : Nat) (api : APIEndpoint) : Bool × APIEndpoint :=
  if api.status = APIStatus.OFFLINE then (false, api)
  else if api.status = APIStatus.RATE_LIMITED then
    match api.rate_limit_reset with
    | some t =>
      if now > t then (true, { api with status := APIStatus.ACTIVE, requests_made := 0 })
      else (false, api)
    | none => (false, api)
  else if api.status = APIStatus.ERROR ∧ api.error_count > 5 then (false, api)
  else (true, api)

/- _needs_health_check (source lines 409-414); interval 300 seconds.
   A missing entry is true; datetime.now() - last_check > 300s is
   now > last_check + 300 (false for now earlier than last_check, as the
   negative timedelta comparison is false in Python too). -/
def needsHealthCheck (now : Nat) (g : SGroup) : Bool :=
  match g.lastCheck with
  | none => true
  | some t => decide (t + 300 < now)

/- Body of the per-endpoint loop of _perform_health_check (source lines
   416-437).  OFFLINE endpoints are skipped (continue); the expiry branch
   fires whatever the status is, and then the quota branch is evaluated on
   the possibly updated fields. -/
def healthCheckEndpoint (now : Nat) (api : APIEndpoint) : APIEndpoint :=
  if api.status = APIStatus.OFFLINE then api
  else
    let api1 :=
      match api.rate_limit_reset with
      | some t =>
        if now > t then
          { api with status := APIStatus.ACTIVE, rate_limit_reset := none, requests_made := 0 }
        else api
      | none => api
    if api1.requests_made ≥ api1.max_requests_per_minute then
      { api1 with status := APIStatus.RATE_LIMITED, rate_limit_reset := some (now + 60) }
    else api1

/- _perform_health_check over a whole group; it finally records the check
   time in last_health_check[service]. -/
def performHealthCheck (now : Nat) (g : SGroup) : SGroup :=
  { apis := g.apis.map (healthCheckEndpoint now), cursor := g.cursor, lastCheck := some now }

/- range(s, s + n) as a list, mirroring the Python for loops over ranges. -/
def rangeFrom : Nat → Nat → List Nat
  | _, 0 => []
  | s, n + 1 => s :: rangeFrom (s + 1) n

/- First element of the list satisfying p, mirroring a Python scan loop that
   breaks at the first hit. -/
def firstHit (p : Nat → Bool) : List Nat → Option Nat
  | [] => none
  | j :: l => if p j then some j else firstHit p l

/- Index of the first element satisfying p, mirroring the
   for i, api in enumerate(...) / break pattern of the source. -/
def findIdxP {α : Type} (p : α → Bool) : List α → Option Nat
  | [] => none
  | a :: l => if p a then some 0 else (findIdxP p l).map (· + 1)

/- The rotation scan of get_active_api (source lines 395-404): offsets
   i in range(1, len(apis)), index (start + i) mod len, first available.
   An available endpoint is returned at once, so endpoints scanned before the
   hit were unavailable and hence not mutated by _is_api_available. -/
def scanSelect (now : Nat) (apis : List APIEndpoint) (start : Nat) : Option Nat :=
  (firstHit
    (fun j => (isApiAvailable now (apis.getD ((start + j) % apis.length) dummyEndpoint)).1)
    (rangeFrom 1 (apis.length - 1))).map (fun j => (start + j) % apis.length)

/- The health-check step at the top of get_active_api (source lines 378-379):
   run _perform_health_check when forced or due, else leave the group as is. -/
def maybeHealthCheck (now : Nat) (forceCheck : Bool) (g : SGroup) : SGroup :=
  if forceCheck || needsHealthCheck now g then performHealthCheck now g else g

/- The use-this-endpoint update of get_active_api (source lines 388-389 and
   401-402): api.last_used = datetime.now(); api.requests_made += 1. -/
def usedOf (now : Nat) (e : APIEndpoint) : APIEndpoint :=
  { e with last_used := some now, requests_made := e.requests_made + 1 }

/- The selection core of get_active_api (source lines 381-407), acting on
   the group state after the health-check step. -/
def selectFrom (now : Nat) (g1 : SGroup) : Option APIEndpoint × SGroup :=
  match g1.apis[g1.cursor]? with
    | none => (none, g1)
    | some cur =>
      let r := isApiAvailable now cur
      if r.1 then
        let cur2 := usedOf now r.2
        (some cur2, { g1 with apis := g1.apis.set g1.cursor cur2 })
      else
        match scanSelect now g1.apis g1.cursor with
        | none => (none, g1)
        | some idx =>
          let a := g1.apis.getD idx dummyEndpoint
          let r2 := isApiAvailable now a
          let a2 := usedOf now r2.2
          (some a2, { apis := g1.apis.set idx a2, cursor := idx, lastCheck := g1.lastCheck })

/- get_active_api (source lines 368-407), per group: empty-group guard,
   health-check step, then the sticky-or-scan selection. -/
def getActiveApi (now : Nat) (forceCheck : Bool) (g : SGroup) : Option APIEndpoint × SGroup :=
  if g.apis.isEmpty then (none, g)
  else selectFrom now (maybeHealthCheck now forceCheck g)

/- The state written to the endpoint found by mark_api_error (source lines
   461-464): error count incremented, status forced to ERROR. -/
def markedOf (api : APIEndpoint) : APIEndpoint :=
  { api with error_count := api.error_count + 1, status := APIStatus.ERROR }

/- The cursor-advance condition of mark_api_error (source line 476):
   self._is_api_available(next_api) or next_api.status != APIStatus.ERROR.
   Python short-circuits, so the side effect of _is_api_available fires
   exactly when the first disjunct is true, in which case the endpoint was
   mutated before being compared; when the first disjunct is false the
   endpoint is unchanged and the status test sees the original record. -/
def rotCond (now : Nat) (e : APIEndpoint) : Bool :=
  (isApiAvailable now e).1 || !(decide (e.status = APIStatus.ERROR))

/- The forced-rotation scan of mark_api_error (source lines 470-480):
   offsets j in range(1, len(apis)), index (i + j) mod len, first endpoint
   satisfying rotCond. -/
def scanMark (now : Nat) (apis : List APIEndpoint) (i : Nat) : Option Nat :=
  (firstHit
    (fun j => rotCond now (apis.getD ((i + j) % apis.length) dummyEndpoint))
    (rangeFrom 1 (apis.length - 1))).map (fun j => (i + j) % apis.length)

/- mark_api_error (source lines 456-487), per group.  The first endpoint
   whose name matches is processed (break).  The scheduled recovery thread is
   modelled separately as recoverApi. -/
def markApiError (now : Nat) (name : String) (g : SGroup) : SGroup :=
  match findIdxP (fun a => a.name == name) g.apis with
  | none => g
  | some i =>
    match g.apis[i]? with
    | none => g
    | some api =>
      let apis1 := g.apis.set i (markedOf api)
      if 1 < apis1.length then
        match scanMark now apis1 i with
        | some nidx =>
          let nxt := apis1.getD nidx dummyEndpoint
          { g with apis := apis1.set nidx (isApiAvailable now nxt).2, cursor := nidx }
        | none => { g with apis := apis1 }
      else { g with apis := apis1 }

/- mark_api_rate_limited (source lines 505-513) over the endpoint list: the
   first endpoint whose name matches gets status RATE_LIMITED and reset
   timestamp reset_time or now + 60 (a datetime is always truthy, so the
   default only applies when the argument is None). -/
def markRateLimitedList (now : Nat) (rt : Option Nat) (name : String) :
    List APIEndpoint → List APIEndpoint
  | [] => []
  | a :: l =>
    if a.name == name then
      { a with status := APIStatus.RATE_LIMITED, rate_limit_reset := some (rt.getD (now + 60)) } :: l
    else a :: markRateLimitedList now rt name l

/- mark_api_rate_limited per group (the cursor is untouched). -/
def markApiRateLimited (now : Nat) (rt : Option Nat) (name : String) (g : SGroup) : SGroup :=
  { g with apis := markRateLimitedList now rt name g.apis }

/- Body of the recovery thread of _schedule_api_recovery (source lines
   491-499), as run at its fire time: the first endpoint whose name matches
   is set ACTIVE with error count 0, unconditionally on its current status. -/
def recoverApi (name : String) : List APIEndpoint → List APIEndpoint
  | [] => []
  | a :: l =>
    if a.name == name then { a with status := APIStatus.ACTIVE, error_count := 0 } :: l
    else a :: recoverApi name l

/- Per-endpoint body of reset_api_errors (source lines 632-642). -/
def resetErrorsEndpoint (e : APIEndpoint) : APIEndpoint :=
  let e1 := { e with error_count := 0 }
  if e1.status = APIStatus.ERROR then { e1 with status := APIStatus.ACTIVE } else e1

def resetErrorsList (l : List APIEndpoint) : List APIEndpoint :=
  l.map resetErrorsEndpoint

/- Dict lookup on an association list (first binding wins, as in a dict
   whose keys are unique). -/
def glookup {α : Type} : List (String × α) → String → Option α
  | [], _ => none
  | p :: rest, s => if p.1 = s then some p.2 else glookup rest s

/- Dict write self.apis[s] = g on the association list. -/
def setGroup (m : List (String × SGroup)) (s : String) (g : SGroup) : List (String × SGroup) :=
  m.map (fun p => if p.1 = s then (p.1, g) else p)

/- mark_api_error at manager level: self.apis[service] raises KeyError when
   the service key is absent, modelled as Except.error (). -/
def markApiErrorM (now : Nat) (service name : String) (m : ManagerState) :
    Except Unit ManagerState :=
  match glookup m.groups service with
  | none => Except.error ()
  | some _ =>
    Except.ok
      { m with
        groups := m.groups.map (fun p => if p.1 = service then (p.1, markApiError now name p.2) else p) }

/- mark_api_rate_limited at manager level, again with KeyError on an unknown
   service key. -/
def markApiRateLimitedM (now : Nat) (service name : String) (rt : Option Nat)
    (m : ManagerState) : Except Unit ManagerState :=
  match glookup m.groups service with
  | none => Except.error ()
  | some _ =>
    Except.ok
      { m with
        groups := m.groups.map
          (fun p =>
            if p.1 = service then (p.1, { p.2 with apis := markRateLimitedList now rt name p.2.apis })
            else p) }

/- One service-group attempt of get_fallback_api (source lines 535-541):
   if service_name in self.apis and self.apis[service_name], call
   get_active_api and keep its state updates whether or not it succeeded. -/
def tryService (now : Nat) (m : ManagerState) (s : String) :
    Option APIEndpoint × ManagerState :=
  match glookup m.groups s with
  | none => (none, m)
  | some g =>
    if g.apis.isEmpty then (none, m)
    else
      ((getActiveApi now false g).1,
       { m with groups := setGroup m.groups s (getActiveApi now false g).2 })

def tryTier (now : Nat) (m : ManagerState) : List String → Option APIEndpoint × ManagerState
  | [] => (none, m)
  | s :: rest =>
    match tryService now m s with
    | (some api, m1) => (some api, m1)
    | (none, m1) => tryTier now m1 rest

def tryTiers (now : Nat) (m : ManagerState) : List (List String) → Option APIEndpoint × ManagerState
  | [] => (none, m)
  | tier :: rest =>
    match tryTier now m tier with
    | (some api, m1) => (some api, m1)
    | (none, m1) => tryTiers now m1 rest

/- get_fallback_api (source lines 515-544): look up the chain, compute the
   start tier as one past the first tier containing the failed service (0
   when none is given or none contains it), then walk the remaining tiers in
   order. -/
def getFallbackApi (now : Nat) (serviceType : String) (failedService : Option String)
    (m : ManagerState) : Option APIEndpoint × ManagerState :=
  match glookup m.chains serviceType with
  | none => (none, m)
  | some chain =>
    let startIndex :=
      match failedService with
      | none => 0
      | some fs =>
        match findIdxP (fun tier => tier.contains fs) chain with
        | some i => i + 1
        | none => 0
    tryTiers now m (chain.drop startIndex)

/- Modelled from the spec: the Availability Tracker reference case analysis
   of section 4.2, one clause per status, used by claim C6 to compare the
   source function against the specified behaviour.  A null reset timestamp
   is read as now not being past it. -/
def isAvailableRef (now : Nat) (api : APIEndpoint) : Bool × APIEndpoint :=
  match api.status with
  | APIStatus.OFFLINE => (false, api)
  | APIStatus.RATE_LIMITED =>
    match api.rate_limit_reset with
    | some t =>
      if now > t then (true, { api with status := APIStatus.ACTIVE, requests_made := 0 })
      else (false, api)
    | none => (false, api)
  | APIStatus.ERROR =>
    if api.error_count > 5 then (false, api) else (true, api)
  | APIStatus.ACTIVE => (true, api)

/- The direction of the claimed rate-limit invariant that the code does
   preserve: a RATE_LIMITED endpoint has its reset timestamp set. -/
def rlImp (e : APIEndpoint) : Bool :=
  decide (e.status = APIStatus.RATE_LIMITED → e.rate_limit_reset ≠ none)

/- Concrete states used by the scenario claims, their counterexamples and
   witnesses.  scnE is a freshly registered endpoint: status ACTIVE, error
   count 0, no timestamps, quota 60 per minute (the dataclass defaults). -/
def scnE (nm : String) : APIEndpoint :=
  { name := nm, api_key := "k", base_url := "u" }

/- The three-endpoint search group of the C3 scenario, with a health check
   recorded at time 100 so that no health check intervenes during the trace;
   every operation of the trace happens at time 100. -/
def gC3 : SGroup :=
  { apis := [scnE "e1", scnE "e2", scnE "e3"], cursor := 0, lastCheck := some 100 }

def gC3a : SGroup := markApiError 100 "e1" gC3
def selC3a : Option APIEndpoint × SGroup := getActiveApi 100 false gC3a
def gC3b : SGroup := markApiError 100 "e2" selC3a.2
def selC3b : Option APIEndpoint × SGroup := getActiveApi 100 false gC3b
def gC3c : SGroup := markApiError 100 "e3" selC3b.2
def selC3c : Option APIEndpoint × SGroup := getActiveApi 100 false gC3c

/- C2 counterexample group: the failing endpoint e1, an OFFLINE sibling e2,
   and an available ACTIVE sibling e3. -/
def gC2 : SGroup :=
  { apis := [scnE "e1", { scnE "e2" with status := APIStatus.OFFLINE }, scnE "e3"],
    cursor := 0, lastCheck := some 0 }

/- C2 witness group: failing endpoint a, quarantined sibling b (ERROR with
   error count 6), available sibling c. -/
def gW2 : SGroup :=
  { apis := [scnE "a",
             { scnE "b" with status := APIStatus.ERROR, error_count := 6 },
             scnE "c"],
    cursor := 0, lastCheck := some 0 }

/- C5 counterexample: a single ACTIVE endpoint already at its per-minute
   quota, with a stale health check so the check fires inside the call. -/
def eC5x : APIEndpoint := { scnE "y" with requests_made := 60 }

def gC5x : SGroup := { apis := [eC5x], cursor := 0, lastCheck := some 0 }

def gW5 : SGroup := { apis := [scnE "w"], cursor := 0, lastCheck := some 0 }

/- C7 counterexample: one ACTIVE endpoint one request below quota; the first
   call (health check due) uses it and reaches the quota, the second call
   300 seconds later rate-limits it in its health check. -/
def eC7x : APIEndpoint := { scnE "x" with requests_made := 59 }

def gC7x : SGroup := { apis := [eC7x], cursor := 0, lastCheck := some 0 }

def c7run1 : Option APIEndpoint × SGroup := getActiveApi 400 false gC7x
def c7run2 : Option APIEndpoint × SGroup := getActiveApi 701 false c7run1.2

def gW7 : SGroup := { apis := [scnE "s"], cursor := 0, lastCheck := some 0 }

/- C4 counterexample endpoint: RATE_LIMITED with an expired reset timestamp,
   satisfying the claimed two-way invariant before the availability check. -/
def eC4x : APIEndpoint :=
  { scnE "r" with status := APIStatus.RATE_LIMITED, rate_limit_reset := some 10 }

def gW4 : SGroup := { apis := [eC4x], cursor := 0, lastCheck := some 0 }

/- C1 counterexample endpoint: OFFLINE with a nonzero error count. -/
def eC1x : APIEndpoint :=
  { scnE "e1" with status := APIStatus.OFFLINE, error_count := 3 }

/- C8 witness: chain cat = [[a],[b,c],[d]]; group b holds the only endpoint. -/
def gWEmpty : SGroup := { apis := [], cursor := 0, lastCheck := some 100 }

def gWB : SGroup := { apis := [scnE "b1"], cursor := 0, lastCheck := some 100 }

def mW8 : ManagerState :=
  { groups := [("a", gWEmpty), ("b", gWB), ("c", gWEmpty), ("d", gWEmpty)],
    chains := [("cat", [["a"], ["b", "c"], ["d"]])] }

def apiW8 : APIEndpoint := { scnE "b1" with last_used := some 100, requests_made := 1 }

def mW8r : ManagerState :=
  { groups := [("a", gWEmpty),
               ("b", { apis := [apiW8], cursor := 0, lastCheck := some 100 }),
               ("c", gWEmpty), ("d", gWEmpty)],
    chains := [("cat", [["a"], ["b", "c"], ["d"]])] }

/- C9 counterexample: the engine state right after initialization with no
   credentials configured: the 16 service keys of self.apis (source lines
   63-80) with empty endpoint lists, cursor 0 (line 339) and the configured
   fallback chains (lines 86-94).  mark_api_error is then called with the
   service key "openrouter", which is not among the dict keys, exactly as
   _make_api_call does for an endpoint named openrouter_1 (line 743). -/
def initSGroup : SGroup := { apis := [], cursor := 0, lastCheck := some 0 }

def initGroups : List (String × SGroup) :=
  [("qwen", initSGroup), ("gemini", initSGroup), ("groq", initSGroup),
   ("openai", initSGroup), ("deepseek", initSGroup), ("jina", initSGroup),
   ("exa", initSGroup), ("serper", initSGroup), ("serpapi", initSGroup),
   ("tavily", initSGroup), ("supadata", initSGroup), ("firecrawl", initSGroup),
   ("scrapingant", initSGroup), ("youtube", initSGroup), ("rapidapi", initSGroup),
   ("apify", initSGroup)]

def initChains : List (String × List (List String)) :=
  [("ai_models", [["qwen"], ["gemini"], ["openai"], ["groq"], ["deepseek"]]),
   ("ai_generation", [["qwen"], ["gemini"], ["openai"], ["groq"], ["deepseek"]]),
   ("search", [["jina"], ["exa"], ["serper"], ["serpapi"], ["firecrawl"], ["tavily"], ["apify"]]),
   ("social_insights", [["supadata"], ["apify"], ["serper"], ["serpapi"], ["firecrawl"], ["tavily"]]),
   ("web_scraping", [["firecrawl"], ["apify"], ["scrapingant"], ["jina"], ["serper"], ["serpapi"]]),
   ("content_extraction", [["firecrawl"], ["jina"], ["apify"], ["scrapingant"], ["serper"], ["rapidapi"]]),
   ("url_analysis", [["firecrawl"], ["jina"], ["exa"], ["apify"], ["serper"], ["serpapi"]])]

def initManager : ManagerState := { groups := initGroups, chains := initChains }

/- C9 witness state: a jina group holding one endpoint jina_1; the marks are
   issued for the registered group jina but the unknown name jina_99. -/
def mW9 : ManagerState :=
  { groups := [("jina", { apis := [scnE "jina_1"], cursor := 0, lastCheck := some 0 })],
    chains := initChains }

/- C10 witness group: a single OFFLINE endpoint, so selection fails. -/
def gW10 : SGroup :=
  { apis := [{ scnE "o" with status := APIStatus.OFFLINE }], cursor := 0, lastCheck := some 0 }

/- ------------------------------------------------------------------ -/
/- Helper lemmas on the scan primitives.                              -/
/- ------------------------------------------------------------------ -/

theorem mem_rangeFrom : ∀ (n s j : Nat), j ∈ rangeFrom s n ↔ s ≤ j ∧ j < s + n := by
  intro n
  induction n with
  | zero => intro s j; simp [rangeFrom]
  | succ n ih =>
    intro s j
    simp [rangeFrom, ih (s + 1)]
    omega

theorem firstHit_eq_none {p : Nat → Bool} :
    ∀ (l : List Nat), firstHit p l = none → ∀ j ∈ l, p j = false := by
  intro l
  induction l with
  | nil => intro _ j hj; cases hj
  | cons a l ih =>
    intro h j hj
    cases hpa : p a with
    | true => rw [firstHit, if_pos hpa] at h; cases h
    | false =>
      rw [firstHit, if_neg (by simp [hpa])] at h
      cases hj with
      | head => exact hpa
      | tail _ hj2 => exact ih h j hj2

theorem firstHit_rangeFrom_some {p : Nat → Bool} :
    ∀ (n s j : Nat), firstHit p (rangeFrom s n) = some j →
      s ≤ j ∧ j < s + n ∧ p j = true ∧ ∀ k, s ≤ k → k < j → p k = false := by
  intro n
  induction n with
  | zero => intro s j h; cases h
  | succ n ih =>
    intro s j h
    rw [rangeFrom] at h
    cases hpa : p s with
    | true =>
      rw [firstHit, if_pos hpa] at h
      injection h with h
      subst h
      exact ⟨Nat.le_refl _, by omega, hpa, fun k hk1 hk2 => absurd hk1 (by omega)⟩
    | false =>
      rw [firstHit, if_neg (by simp [hpa])] at h
      obtain ⟨h1, h2, h3, h4⟩ := ih (s + 1) j h
      refine ⟨by omega, by omega, h3, ?_⟩
      intro k hk1 hk2
      rcases Nat.eq_or_lt_of_le hk1 with heq | hlt
      · exact heq ▸ hpa
      · exact h4 k hlt hk2

theorem firstHit_rangeFrom_intro {p : Nat → Bool} :
    ∀ (n s j : Nat), s ≤ j → j < s + n → p j = true →
      (∀ k, s ≤ k → k < j → p k = false) → firstHit p (rangeFrom s n) = some j := by
  intro n
  induction n with
  | zero => intro s j h1 h2; omega
  | succ n ih =>
    intro s j h1 h2 h3 h4
    rw [rangeFrom, firstHit]
    rcases Nat.eq_or_lt_of_le h1 with heq | hlt
    · subst heq; rw [if_pos h3]
    · rw [if_neg (by simp [h4 s (Nat.le_refl s) hlt])]
      exact ih (s + 1) j hlt (by omega) h3 (fun k hk1 hk2 => h4 k (by omega) hk2)

theorem findIdxP_eq_none {α : Type} {p : α → Bool} :
    ∀ (l : List α), (∀ a ∈ l, p a = false) → findIdxP p l = none := by
  intro l
  induction l with
  | nil => intro _; rfl
  | cons a l ih =>
    intro h
    rw [findIdxP, if_neg (by simp [h a (List.mem_cons_self a l)])]
    rw [ih (fun b hb => h b (List.mem_cons_of_mem a hb))]
    rfl

/- ------------------------------------------------------------------ -/
/- Helper lemmas on availability and the health check.                -/
/- ------------------------------------------------------------------ -/

theorem isApiAvailable_false_eq (now : Nat) (e : APIEndpoint)
    (h : (isApiAvailable now e).1 = false) : (isApiAvailable now e).2 = e := by
  rcases e with ⟨nm, k, u, st, lu, ec, rr, rm, mx⟩
  cases st <;> cases rr <;> simp_all [isApiAvailable] <;> split_ifs at h ⊢ <;> simp_all

theorem isApiAvailable_post (now : Nat) (e : APIEndpoint)
    (h : (isApiAvailable now e).1 = true) :
    (isApiAvailable now (isApiAvailable now e).2).1 = true := by
  rcases e with ⟨nm, k, u, st, lu, ec, rr, rm, mx⟩
  cases st <;> cases rr <;> simp_all [isApiAvailable] <;> split_ifs at h ⊢ <;> simp_all

theorem isApiAvailable_of_active (now : Nat) (e : APIEndpoint)
    (h : e.status = APIStatus.ACTIVE) :
    isApiAvailable now e = (true, e) := by
  simp [isApiAvailable, h]

theorem isApiAvailable_name (now : Nat) (e : APIEndpoint) :
    (isApiAvailable now e).2.name = e.name := by
  rcases e with ⟨nm, k, u, st, lu, ec, rr, rm, mx⟩
  cases st <;> cases rr <;> simp [isApiAvailable] <;> split_ifs <;> simp

theorem rlImp_isAvail (now : Nat) (e : APIEndpoint)
    (h : rlImp e = true) : rlImp (isApiAvailable now e).2 = true := by
  rcases e with ⟨nm, k, u, st, lu, ec, rr, rm, mx⟩
  cases st <;> cases rr <;> simp_all [isApiAvailable, rlImp] <;> split_ifs <;> simp_all

theorem rlImp_hcE (now : Nat) (e : APIEndpoint)
    (h : rlImp e = true) : rlImp (healthCheckEndpoint now e) = true := by
  rcases e with ⟨nm, k, u, st, lu, ec, rr, rm, mx⟩
  cases st <;> cases rr <;> simp_all [healthCheckEndpoint, rlImp] <;> split_ifs <;> simp_all

theorem healthCheckEndpoint_active (now : Nat) (e : APIEndpoint)
    (hst : e.status = APIStatus.ACTIVE) (hreq : e.requests_made < e.max_requests_per_minute) :
    (healthCheckEndpoint now e).status = APIStatus.ACTIVE ∧
    (healthCheckEndpoint now e).name = e.name ∧
    (healthCheckEndpoint now e).requests_made ≤ e.requests_made ∧
    (healthCheckEndpoint now e).max_requests_per_minute = e.max_requests_per_minute := by
  rcases e with ⟨nm, k, u, st, lu, ec, rr, rm, mx⟩
  subst hst
  cases rr <;> simp_all [healthCheckEndpoint] <;> split_ifs <;> simp_all <;> omega

/- rlImp only looks at the status and the reset timestamp, so the counter
   and timestamp updates of the selection path preserve it. -/
theorem rlImp_counters (e : APIEndpoint) (lu : Option Nat) (rm : Nat) :
    rlImp { e with last_used := lu, requests_made := rm } = rlImp e := by
  rfl

/- ------------------------------------------------------------------ -/
/- Structural lemmas on the selection path.                           -/
/- ------------------------------------------------------------------ -/

theorem selectFrom_none_char (now : Nat) (g1 : SGroup) (g2 : SGroup)
    (hres : selectFrom now g1 = (none, g2))
    (hcur : g1.cursor < g1.apis.length) :
    g2 = g1 ∧ ∀ e ∈ g1.apis, (isApiAvailable now e).1 = false := by
  have hget : g1.apis[g1.cursor]? = some (g1.apis[g1.cursor]) :=
    List.getElem?_eq_getElem hcur
  unfold selectFrom at hres
  rw [hget] at hres
  cases havail : (isApiAvailable now (g1.apis[g1.cursor])).1 with
  | true => simp [havail] at hres
  | false =>
    cases hscan : scanSelect now g1.apis g1.cursor with
    | some idx => simp [havail, hscan] at hres
    | none =>
      simp [havail, hscan] at hres
      refine ⟨hres.symm, ?_⟩
      intro e he
      obtain ⟨k, hk⟩ := List.mem_iff_getElem?.mp he
      have hklen : k < g1.apis.length := by
        by_contra hge
        rw [List.getElem?_eq_none (Nat.le_of_not_lt hge)] at hk
        cases hk
      by_cases hkc : k = g1.cursor
      · subst hkc
        rw [hget] at hk
        injection hk with hk
        subst hk
        exact havail
      · have hfh :
            firstHit
              (fun j => (isApiAvailable now
                (g1.apis.getD ((g1.cursor + j) % g1.apis.length) dummyEndpoint)).1)
              (rangeFrom 1 (g1.apis.length - 1)) = none := by
          have h2 := hscan
          unfold scanSelect at h2
          exact Option.map_eq_none'.mp h2
        set j := if g1.cursor < k then k - g1.cursor else k + g1.apis.length - g1.cursor with hj
        have hjmem : j ∈ rangeFrom 1 (g1.apis.length - 1) := by
          rw [mem_rangeFrom]
          constructor
          · rw [hj]; split_ifs <;> omega
          · rw [hj]; split_ifs <;> omega
        have hidx : (g1.cursor + j) % g1.apis.length = k := by
          rw [hj]; split_ifs with hck
          · have h3 : g1.cursor + (k - g1.cursor) = k := by omega
            rw [h3, Nat.mod_eq_of_lt hklen]
          · have h3 : g1.cursor + (k + g1.apis.length - g1.cursor) = k + g1.apis.length := by
              omega
            rw [h3, Nat.add_mod_right, Nat.mod_eq_of_lt hklen]
        have hpj := firstHit_eq_none _ hfh j hjmem
        simp only [] at hpj
        rw [hidx] at hpj
        have hgd : g1.apis.getD k dummyEndpoint = e := by
          rw [List.getD_eq_getElem?_getD, hk]
          rfl
        rw [hgd] at hpj
        exact hpj

theorem selectFrom_some_mem (now : Nat) (g1 : SGroup) (api : APIEndpoint) (g2 : SGroup)
    (hres : selectFrom now g1 = (some api, g2)) : api ∈ g2.apis := by
  unfold selectFrom at hres
  cases hget : g1.apis[g1.cursor]? with
  | none => rw [hget] at hres; simp at hres
  | some cur =>
    rw [hget] at hres
    have hcur : g1.cursor < g1.apis.length := by
      by_contra hge
      rw [List.getElem?_eq_none (Nat.le_of_not_lt hge)] at hget
      cases hget
    cases havail : (isApiAvailable now cur).1 with
    | true =>
      simp [havail] at hres
      obtain ⟨h1, h2⟩ := hres
      rw [← h2]
      simp only []
      rw [h1]
      exact List.mem_set g1.apis g1.cursor hcur _
    | false =>
      cases hscan : scanSelect now g1.apis g1.cursor with
      | none => simp [havail, hscan] at hres
      | some idx =>
        have hidx : idx < g1.apis.length := by
          have h2 := hscan
          unfold scanSelect at h2
          obtain ⟨j, hj1, hj2⟩ := Option.map_eq_some'.mp h2
          rw [← hj2]
          exact Nat.mod_lt _ (Nat.lt_of_le_of_lt (Nat.zero_le _) hcur)
        simp [havail, hscan] at hres
        obtain ⟨h1, h2⟩ := hres
        rw [← h2]
        simp only []
        rw [h1]
        exact List.mem_set g1.apis idx hidx _

theorem maybeHealthCheck_cursor (now : Nat) (f : Bool) (g : SGroup) :
    (maybeHealthCheck now f g).cursor = g.cursor := by
  unfold maybeHealthCheck
  split <;> rfl

theorem maybeHealthCheck_length (now : Nat) (f : Bool) (g : SGroup) :
    (maybeHealthCheck now f g).apis.length = g.apis.length := by
  unfold maybeHealthCheck
  split
  · exact List.length_map _ _
  · rfl

theorem selectFrom_none_cursor (now : Nat) (g1 g2 : SGroup)
    (hres : selectFrom now g1 = (none, g2)) : g2.cursor = g1.cursor := by
  unfold selectFrom at hres
  cases hget : g1.apis[g1.cursor]? with
  | none =>
    rw [hget] at hres
    simp at hres
    rw [hres]
  | some cur =>
    rw [hget] at hres
    cases havail : (isApiAvailable now cur).1 with
    | true => simp [havail] at hres
    | false =>
      cases hscan : scanSelect now g1.apis g1.cursor with
      | some idx => simp [havail, hscan] at hres
      | none =>
        simp [havail, hscan] at hres
        rw [hres]

theorem getActiveApi_none_char (now : Nat) (f : Bool) (g g2 : SGroup)
    (hres : getActiveApi now f g = (none, g2))
    (hcur : g.cursor < g.apis.length) :
    g2 = maybeHealthCheck now f g ∧ ∀ e ∈ g2.apis, (isApiAvailable now e).1 = false := by
  have hne : g.apis.isEmpty = false := by
    cases hap : g.apis with
    | nil => rw [hap] at hcur; simp at hcur
    | cons a l => simp [hap]
  unfold getActiveApi at hres
  rw [hne] at hres
  simp only [Bool.false_eq_true, if_false] at hres
  have hcur1 : (maybeHealthCheck now f g).cursor < (maybeHealthCheck now f g).apis.length := by
    rw [maybeHealthCheck_cursor, maybeHealthCheck_length]
    exact hcur
  obtain ⟨h1, h2⟩ := selectFrom_none_char now _ g2 hres hcur1
  exact ⟨h1, by rw [h1]; exact h2⟩

theorem selectFrom_sticky (now : Nat) (g1 : SGroup) (e : APIEndpoint)
    (hget : g1.apis[g1.cursor]? = some e)
    (hst : e.status = APIStatus.ACTIVE) :
    selectFrom now g1 =
      (some (usedOf now e), { g1 with apis := g1.apis.set g1.cursor (usedOf now e) }) := by
  unfold selectFrom
  rw [hget]
  simp only [isApiAvailable_of_active now e hst]
  simp

theorem getActiveApi_sticky (now : Nat) (f : Bool) (g : SGroup) (e : APIEndpoint)
    (hget : g.apis[g.cursor]? = some e)
    (hst : e.status = APIStatus.ACTIVE)
    (hreq : e.requests_made < e.max_requests_per_minute) :
    ∃ a, (getActiveApi now f g).1 = some a ∧
      (getActiveApi now f g).2.cursor = g.cursor ∧
      (getActiveApi now f g).2.apis[g.cursor]? = some a ∧
      a.name = e.name ∧ a.status = APIStatus.ACTIVE ∧
      a.requests_made ≤ e.requests_made + 1 ∧
      a.max_requests_per_minute = e.max_requests_per_minute := by
  have hcur : g.cursor < g.apis.length := by
    by_contra hge
    rw [List.getElem?_eq_none (Nat.le_of_not_lt hge)] at hget
    cases hget
  have hne : g.apis.isEmpty = false := by
    cases hap : g.apis with
    | nil => rw [hap] at hcur; simp at hcur
    | cons a l => simp [hap]
  have hcur1 : (maybeHealthCheck now f g).cursor = g.cursor := maybeHealthCheck_cursor now f g
  have hlen1 : (maybeHealthCheck now f g).apis.length = g.apis.length :=
    maybeHealthCheck_length now f g
  obtain ⟨e1, hget1, hst1, hnm1, hrq1, hmx1⟩ :
      ∃ e1, (maybeHealthCheck now f g).apis[g.cursor]? = some e1 ∧
        e1.status = APIStatus.ACTIVE ∧ e1.name = e.name ∧
        e1.requests_made ≤ e.requests_made ∧
        e1.max_requests_per_minute = e.max_requests_per_minute := by
    unfold maybeHealthCheck
    split
    · refine ⟨healthCheckEndpoint now e, ?_, ?_⟩
      · show (g.apis.map (healthCheckEndpoint now))[g.cursor]? = _
        rw [List.getElem?_map, hget]
        rfl
      · obtain ⟨h1, h2, h3, h4⟩ := healthCheckEndpoint_active now e hst hreq
        exact ⟨h1, h2, h3, h4⟩
    · exact ⟨e, hget, hst, rfl, Nat.le_refl _, rfl⟩
  have hs := selectFrom_sticky now (maybeHealthCheck now f g) e1 (by rw [hcur1]; exact hget1) hst1
  refine ⟨usedOf now e1, ?_, ?_, ?_, ?_, ?_, ?_, ?_⟩
  · unfold getActiveApi
    rw [hne]
    simp only [Bool.false_eq_true, if_false]
    rw [hs]
  · unfold getActiveApi
    rw [hne]
    simp only [Bool.false_eq_true, if_false]
    rw [hs]
    exact hcur1
  · unfold getActiveApi
    rw [hne]
    simp only [Bool.false_eq_true, if_false]
    rw [hs]
    show ((maybeHealthCheck now f g).apis.set (maybeHealthCheck now f g).cursor _)[g.cursor]? = _
    rw [hcur1]
    exact List.getElem?_set_self (by rw [hlen1]; exact hcur)
  · show e1.name = e.name
    exact hnm1
  · show e1.status = APIStatus.ACTIVE
    exact hst1
  · show e1.requests_made + 1 ≤ e.requests_made + 1
    omega
  · show e1.max_requests_per_minute = e.max_requests_per_minute
    exact hmx1

theorem getActiveApi_none_cursor (now : Nat) (f : Bool) (g : SGroup)
    (h : (getActiveApi now f g).1 = none) :
    (getActiveApi now f g).2.cursor = g.cursor := by
  cases hres : getActiveApi now f g with
  | mk r g2 =>
    rw [hres] at h
    simp only [] at h
    subst h
    unfold getActiveApi at hres
    by_cases hne : g.apis.isEmpty = true
    · rw [if_pos hne] at hres
      injection hres with h1 h2
      rw [← h2]
    · rw [if_neg hne] at hres
      have h3 := selectFrom_none_cursor now _ g2 hres
      simp only []
      rw [h3, maybeHealthCheck_cursor]

/- ------------------------------------------------------------------ -/
/- Claim theorems.                                                    -/
/- ------------------------------------------------------------------ -/

/-- C6 confirmed: the availability check of the source behaves exactly as the
reference case analysis of the spec: OFFLINE is never available; RATE_LIMITED
is available iff now is past the reset timestamp, flipping status to ACTIVE
and zeroing the request counter in that case; ERROR with error count above 5
is unavailable; ERROR with error count at most 5 is available; ACTIVE is
available. -/
theorem C6_availability_case_analysis :
    ∀ (now : Nat) (api : APIEndpoint), isApiAvailable now api = isAvailableRef now api := by
  intro now api
  rcases api with ⟨nm, k, u, st, lu, ec, rr, rm, mx⟩
  cases st <;> cases rr <;> simp [isApiAvailable, isAvailableRef]

/-- C10 confirmed: a selection call that returns Unavailable (None) leaves
the rotation cursor of the group unchanged; the cursor is only ever written
on a successful selection. -/
theorem C10_failed_selection_keeps_cursor (now : Nat) (f : Bool) (g : SGroup)
    (h : (getActiveApi now f g).1 = none) :
    (getActiveApi now f g).2.cursor = g.cursor :=
  getActiveApi_none_cursor now f g h

theorem C10_witness : (getActiveApi 0 false gW10).2.cursor = gW10.cursor :=
  C10_failed_selection_keeps_cursor 0 false gW10 (by decide)

/-- C5 counterexample: a group whose sole endpoint has status ACTIVE at call
time, yet selection returns Unavailable, because the endpoint sits at its
per-minute quota and the due health check (stale last check, call at time
400) flips it to RATE_LIMITED inside the call before the availability test. -/
theorem C5_counterexample :
    eC5x.status = APIStatus.ACTIVE ∧ eC5x ∈ gC5x.apis ∧
    (getActiveApi 400 false gC5x).1 = none := by decide

/-- C5 corrected: selection never returns Unavailable on a group holding an
ACTIVE endpoint whose request counter is still below its per-minute ceiling
(such an endpoint survives the in-call health check); an ACTIVE endpoint at
or above its ceiling can be rate-limited by the health check inside the call,
so ACTIVE status alone does not suffice.  The reachable-state bound
cursor < length is assumed. -/
theorem C5_active_under_quota_selects (now : Nat) (f : Bool) (g : SGroup) (e : APIEndpoint)
    (hcur : g.cursor < g.apis.length) (hmem : e ∈ g.apis)
    (hst : e.status = APIStatus.ACTIVE)
    (hreq : e.requests_made < e.max_requests_per_minute) :
    (getActiveApi now f g).1 ≠ none := by
  intro hnone
  rcases hp : getActiveApi now f g with ⟨r, g2⟩
  rw [hp] at hnone
  simp only [] at hnone
  subst hnone
  obtain ⟨h1, h2⟩ := getActiveApi_none_char now f g g2 hp hcur
  unfold maybeHealthCheck at h1
  by_cases hb : (f || needsHealthCheck now g) = true
  · rw [if_pos hb] at h1
    have hmem2 : healthCheckEndpoint now e ∈ g2.apis := by
      rw [h1]
      show healthCheckEndpoint now e ∈ g.apis.map (healthCheckEndpoint now)
      exact List.mem_map_of_mem _ hmem
    have havail : (isApiAvailable now (healthCheckEndpoint now e)).1 = true := by
      obtain ⟨ha, _, _, _⟩ := healthCheckEndpoint_active now e hst hreq
      rw [isApiAvailable_of_active now _ ha]
    rw [h2 _ hmem2] at havail
    cases havail
  · rw [if_neg hb] at h1
    have hmem2 : e ∈ g2.apis := by rw [h1]; exact hmem
    have havail : (isApiAvailable now e).1 = true := by
      rw [isApiAvailable_of_active now e hst]
    rw [h2 _ hmem2] at havail
    cases havail

theorem C5_witness : (getActiveApi 0 false gW5).1 ≠ none :=
  C5_active_under_quota_selects 0 false gW5 (scnE "w") (by decide) (by decide) (by decide)
    (by decide)

/-- C7 counterexample: a fully healthy single-endpoint group (every endpoint
available before each call), unchanged externally between two consecutive
selection calls, for which the first call returns the endpoint and the second
returns Unavailable: the first call raises the request counter to the quota
and the second call health-checks the group into RATE_LIMITED. -/
theorem C7_counterexample :
    c7run1.1.map APIEndpoint.name = some "x" ∧
    (∀ e ∈ c7run1.2.apis, (isApiAvailable 701 e).1 = true) ∧
    c7run2.1 = none := by decide

/-- C7 corrected: sticky selection holds whenever the endpoint at the cursor
is ACTIVE and even one more request keeps it under its per-minute ceiling:
two consecutive calls on the group (with no external change in between) both
return that endpoint by name and neither call moves the cursor.  Without the
quota margin, the in-call health check can rate-limit the cursor endpoint and
break stickiness. -/
theorem C7_sticky_selection (now1 now2 : Nat) (f1 f2 : Bool) (g : SGroup) (e : APIEndpoint)
    (hget : g.apis[g.cursor]? = some e)
    (hst : e.status = APIStatus.ACTIVE)
    (hreq : e.requests_made + 1 < e.max_requests_per_minute) :
    (getActiveApi now1 f1 g).1.map APIEndpoint.name = some e.name ∧
    (getActiveApi now2 f2 (getActiveApi now1 f1 g).2).1.map APIEndpoint.name = some e.name ∧
    (getActiveApi now1 f1 g).2.cursor = g.cursor ∧
    (getActiveApi now2 f2 (getActiveApi now1 f1 g).2).2.cursor = g.cursor := by
  obtain ⟨a1, h11, h12, h13, h14, h15, h16, h17⟩ :=
    getActiveApi_sticky now1 f1 g e hget hst (by omega)
  have hget2 : (getActiveApi now1 f1 g).2.apis[(getActiveApi now1 f1 g).2.cursor]? = some a1 := by
    rw [h12]
    exact h13
  obtain ⟨a2, h21, h22, h23, h24, h25, h26, h27⟩ :=
    getActiveApi_sticky now2 f2 (getActiveApi now1 f1 g).2 a1 hget2 h15 (by omega)
  refine ⟨?_, ?_, h12, by rw [h22, h12]⟩
  · rw [h11]
    simp [h14]
  · rw [h21]
    simp [h24, h14]

theorem C7_witness :
    (getActiveApi 0 false gW7).1.map APIEndpoint.name = some (scnE "s").name ∧
    (getActiveApi 0 false (getActiveApi 0 false gW7).2).1.map APIEndpoint.name
      = some (scnE "s").name ∧
    (getActiveApi 0 false gW7).2.cursor = gW7.cursor ∧
    (getActiveApi 0 false (getActiveApi 0 false gW7).2).2.cursor = gW7.cursor :=
  C7_sticky_selection 0 0 false false gW7 (scnE "s") (by decide) (by decide) (by decide)

/-- C1 counterexample: an OFFLINE endpoint with error count 3 is reinstated
by the scheduled recovery task: the task sets status ACTIVE and error count 0
with no check of the OFFLINE state, contradicting the claimed immunity. -/
theorem C1_counterexample :
    eC1x.status = APIStatus.OFFLINE ∧ eC1x.error_count = 3 ∧
    ((recoverApi "e1" [eC1x]).getD 0 dummyEndpoint).status = APIStatus.ACTIVE ∧
    ((recoverApi "e1" [eC1x]).getD 0 dummyEndpoint).error_count = 0 := by decide

/-- C1 corrected: the scheduled recovery task reinstates the first endpoint
matching the name unconditionally, whatever its status at fire time: it sets
status to ACTIVE and error count to 0 even when the endpoint is OFFLINE (the
source recovery thread has no OFFLINE guard). -/
theorem C1_recovery_unconditional :
    ∀ (apis : List APIEndpoint) (name : String) (i : Nat) (e : APIEndpoint),
      findIdxP (fun a => a.name == name) apis = some i →
      apis[i]? = some e →
      recoverApi name apis = apis.set i { e with status := APIStatus.ACTIVE, error_count := 0 } := by
  intro apis
  induction apis with
  | nil => intro name i e h _; cases h
  | cons a l ih =>
    intro name i e hf hg
    by_cases hn : (a.name == name) = true
    · simp only [findIdxP, if_pos hn] at hf
      injection hf with hf
      subst hf
      rw [List.getElem?_cons_zero] at hg
      injection hg with hg
      subst hg
      simp only [recoverApi, if_pos hn]
      rfl
    · simp only [findIdxP, if_neg hn] at hf
      obtain ⟨i2, hi2, hieq⟩ := Option.map_eq_some'.mp hf
      subst hieq
      rw [List.getElem?_cons_succ] at hg
      simp only [recoverApi, if_neg hn]
      rw [ih name i2 e hi2 hg]
      rfl

theorem C1_witness :
    recoverApi "e1" [scnE "e0", eC1x] =
      [scnE "e0", eC1x].set 1 { eC1x with status := APIStatus.ACTIVE, error_count := 0 } :=
  C1_recovery_unconditional [scnE "e0", eC1x] "e1" 1 eC1x (by decide) (by decide)

/-- C3 counterexample: in the specified three-endpoint scenario the first two
steps behave as claimed (e2 then e3), but after all three endpoints are
marked ERROR the next selection does not return Unavailable: ERROR endpoints
with error count at most 5 are still available, so the wrapped-around cursor
endpoint e1 is returned. -/
theorem C3_counterexample :
    selC3a.1.map APIEndpoint.name = some "e2" ∧
    selC3b.1.map APIEndpoint.name = some "e3" ∧
    selC3c.1 ≠ none := by decide

/-- C3 corrected: in the scenario, after markError on e1 the next selection
returns e2, after marking e2 the next returns e3, and after marking e3 the
next selection returns e1 again (each endpoint carries error count 1, below
the quarantine threshold 5, so the ERROR endpoints remain selectable) rather
than Unavailable. -/
theorem C3_scenario_trace :
    selC3a.1.map APIEndpoint.name = some "e2" ∧
    selC3b.1.map APIEndpoint.name = some "e3" ∧
    selC3c.1.map APIEndpoint.name = some "e1" := by decide

/- ------------------------------------------------------------------ -/
/- Preservation of the one-way rate-limit invariant.                  -/
/- ------------------------------------------------------------------ -/

theorem rlImp_all_set {l : List APIEndpoint} {n : Nat} {a : APIEndpoint}
    (hl : ∀ x ∈ l, rlImp x = true) (ha : rlImp a = true) :
    ∀ x ∈ l.set n a, rlImp x = true := by
  intro x hx
  rcases List.mem_or_eq_of_mem_set hx with h | h
  · exact hl x h
  · rw [h]; exact ha

theorem rlImp_usedOf (now : Nat) (e : APIEndpoint) : rlImp (usedOf now e) = rlImp e := rfl

theorem rlImp_markedOf (api : APIEndpoint) : rlImp (markedOf api) = true := by
  simp [rlImp, markedOf]

theorem rlImp_getD {l : List APIEndpoint} {n : Nat}
    (hl : ∀ x ∈ l, rlImp x = true) (hn : n < l.length) :
    rlImp (l.getD n dummyEndpoint) = true := by
  rw [List.getD_eq_getElem?_getD, List.getElem?_eq_getElem hn]
  exact hl _ (List.getElem_mem hn)

theorem rlImp_selectFrom (now : Nat) (g1 : SGroup)
    (hl : ∀ x ∈ g1.apis, rlImp x = true) :
    ∀ x ∈ (selectFrom now g1).2.apis, rlImp x = true := by
  cases hget : g1.apis[g1.cursor]? with
  | none =>
    have hsf : selectFrom now g1 = (none, g1) := by
      unfold selectFrom
      rw [hget]
    rw [hsf]
    exact hl
  | some cur =>
    have hcm : cur ∈ g1.apis := List.mem_iff_getElem?.mpr ⟨_, hget⟩
    cases havail : (isApiAvailable now cur).1 with
    | true =>
      have hsf : selectFrom now g1 =
          (some (usedOf now (isApiAvailable now cur).2),
           { g1 with apis := g1.apis.set g1.cursor (usedOf now (isApiAvailable now cur).2) }) := by
        unfold selectFrom
        rw [hget]
        simp [havail]
      rw [hsf]
      exact rlImp_all_set hl (by rw [rlImp_usedOf]; exact rlImp_isAvail now cur (hl cur hcm))
    | false =>
      cases hscan : scanSelect now g1.apis g1.cursor with
      | none =>
        have hsf : selectFrom now g1 = (none, g1) := by
          unfold selectFrom
          rw [hget]
          simp [havail, hscan]
        rw [hsf]
        exact hl
      | some idx =>
        have hidx : idx < g1.apis.length := by
          unfold scanSelect at hscan
          obtain ⟨j, hj1, hj2⟩ := Option.map_eq_some'.mp hscan
          have hlen0 : 0 < g1.apis.length := by
            by_contra h0
            have hz : g1.apis.length = 0 := by omega
            rw [hz] at hj1
            simp [rangeFrom, firstHit] at hj1
          rw [← hj2]
          exact Nat.mod_lt _ hlen0
        have hsf : selectFrom now g1 =
            (some (usedOf now (isApiAvailable now (g1.apis.getD idx dummyEndpoint)).2),
             { apis := g1.apis.set idx (usedOf now (isApiAvailable now (g1.apis.getD idx dummyEndpoint)).2), cursor := idx, lastCheck := g1.lastCheck }) := by
          unfold selectFrom
          rw [hget]
          simp [havail, hscan]
        rw [hsf]
        exact rlImp_all_set hl (by rw [rlImp_usedOf]; exact rlImp_isAvail now _ (rlImp_getD hl hidx))

theorem rlImp_getActive (now : Nat) (f : Bool) (g : SGroup)
    (hl : ∀ x ∈ g.apis, rlImp x = true) :
    ∀ x ∈ (getActiveApi now f g).2.apis, rlImp x = true := by
  unfold getActiveApi
  split
  · exact hl
  · apply rlImp_selectFrom
    unfold maybeHealthCheck
    split
    · intro x hx
      obtain ⟨y, hy, hyx⟩ := List.mem_map.mp hx
      rw [← hyx]
      exact rlImp_hcE now y (hl y hy)
    · exact hl

theorem rlImp_markError (now : Nat) (name : String) (g : SGroup)
    (hl : ∀ x ∈ g.apis, rlImp x = true) :
    ∀ x ∈ (markApiError now name g).apis, rlImp x = true := by
  cases hf : findIdxP (fun a => a.name == name) g.apis with
  | none =>
    have hme : markApiError now name g = g := by
      unfold markApiError
      rw [hf]
    rw [hme]
    exact hl
  | some i =>
    cases hg : g.apis[i]? with
    | none =>
      have hme : markApiError now name g = g := by
        unfold markApiError
        simp only [hf]
        rw [hg]
      rw [hme]
      exact hl
    | some api =>
      have hall1 : ∀ x ∈ g.apis.set i (markedOf api), rlImp x = true :=
        rlImp_all_set hl (rlImp_markedOf api)
      by_cases hlen : 1 < (g.apis.set i (markedOf api)).length
      · cases hscan : scanMark now (g.apis.set i (markedOf api)) i with
        | some nidx =>
          have hn : nidx < (g.apis.set i (markedOf api)).length := by
            unfold scanMark at hscan
            obtain ⟨j, hj1, hj2⟩ := Option.map_eq_some'.mp hscan
            rw [← hj2]
            exact Nat.mod_lt _ (by omega)
          have hme : markApiError now name g =
              { g with apis := (g.apis.set i (markedOf api)).set nidx ((isApiAvailable now ((g.apis.set i (markedOf api)).getD nidx dummyEndpoint)).2), cursor := nidx } := by
            unfold markApiError
            simp only [hf, hg]
            rw [if_pos hlen]
            simp only [hscan]
          rw [hme]
          exact rlImp_all_set hall1 (rlImp_isAvail now _ (rlImp_getD hall1 hn))
        | none =>
          have hme : markApiError now name g = { g with apis := g.apis.set i (markedOf api) } := by
            unfold markApiError
            simp only [hf, hg]
            rw [if_pos hlen]
            simp only [hscan]
          rw [hme]
          exact hall1
      · have hme : markApiError now name g = { g with apis := g.apis.set i (markedOf api) } := by
          unfold markApiError
          simp only [hf, hg]
          rw [if_neg hlen]
        rw [hme]
        exact hall1

theorem rlImp_markRL (now : Nat) (rt : Option Nat) (name : String) :
    ∀ (l : List APIEndpoint), (∀ x ∈ l, rlImp x = true) →
      ∀ x ∈ markRateLimitedList now rt name l, rlImp x = true := by
  intro l
  induction l with
  | nil => intro _ x hx; cases hx
  | cons a l ih =>
    intro hl x hx
    by_cases hn : (a.name == name) = true
    · rw [markRateLimitedList, if_pos hn] at hx
      cases hx with
      | head => simp [rlImp]
      | tail _ hx2 => exact hl x (List.mem_cons_of_mem a hx2)
    · rw [markRateLimitedList, if_neg hn] at hx
      cases hx with
      | head => exact hl _ (List.mem_cons_self a l)
      | tail _ hx2 => exact ih (fun y hy => hl y (List.mem_cons_of_mem a hy)) x hx2

theorem rlImp_resetErrors :
    ∀ (l : List APIEndpoint), (∀ x ∈ l, rlImp x = true) →
      ∀ x ∈ resetErrorsList l, rlImp x = true := by
  intro l hl x hx
  obtain ⟨y, hy, hyx⟩ := List.mem_map.mp hx
  subst hyx
  have hry := hl y hy
  rcases y with ⟨nm, k, u, st, lu, ec, rr, rm, mx⟩
  cases st <;> simp_all [resetErrorsEndpoint, rlImp]

theorem rlImp_recover (name : String) :
    ∀ (l : List APIEndpoint), (∀ x ∈ l, rlImp x = true) →
      ∀ x ∈ recoverApi name l, rlImp x = true := by
  intro l
  induction l with
  | nil => intro _ x hx; cases hx
  | cons a l ih =>
    intro hl x hx
    by_cases hn : (a.name == name) = true
    · rw [recoverApi, if_pos hn] at hx
      cases hx with
      | head => simp [rlImp]
      | tail _ hx2 => exact hl x (List.mem_cons_of_mem a hx2)
    · rw [recoverApi, if_neg hn] at hx
      cases hx with
      | head => exact hl _ (List.mem_cons_self a l)
      | tail _ hx2 => exact ih (fun y hy => hl y (List.mem_cons_of_mem a hy)) x hx2

/-- C4 counterexample: an endpoint satisfying the claimed two-way invariant
(reset timestamp set iff RATE_LIMITED) before the availability check, for
which the check at a time past the reset leaves the timestamp set while
flipping the status to ACTIVE, so the claimed invariant is violated right
after the operation. -/
theorem C4_counterexample :
    (eC4x.status = APIStatus.RATE_LIMITED ↔ eC4x.rate_limit_reset ≠ none) ∧
    (isApiAvailable 20 eC4x).2.status ≠ APIStatus.RATE_LIMITED ∧
    (isApiAvailable 20 eC4x).2.rate_limit_reset ≠ none := by decide

/-- C4 corrected: only one direction of the claimed invariant is preserved by
every engine operation: a RATE_LIMITED endpoint always has its reset
timestamp set (rlImp).  The converse direction fails because the lazy
availability transition (and operations built on it) leaves the timestamp
set after flipping the status to ACTIVE.  The conjunction covers the
availability check, the health check, selection, markError, markRateLimited,
resetErrors and the scheduled recovery. -/
theorem C4_rate_limit_invariant_oneway (now : Nat) (f : Bool) (name : String)
    (rt : Option Nat) (e : APIEndpoint) (g : SGroup) :
    (rlImp e = true → rlImp (isApiAvailable now e).2 = true) ∧
    (rlImp e = true → rlImp (healthCheckEndpoint now e) = true) ∧
    ((∀ x ∈ g.apis, rlImp x = true) → ∀ x ∈ (getActiveApi now f g).2.apis, rlImp x = true) ∧
    ((∀ x ∈ g.apis, rlImp x = true) → ∀ x ∈ (markApiError now name g).apis, rlImp x = true) ∧
    ((∀ x ∈ g.apis, rlImp x = true) →
      ∀ x ∈ (markApiRateLimited now rt name g).apis, rlImp x = true) ∧
    ((∀ x ∈ g.apis, rlImp x = true) → ∀ x ∈ resetErrorsList g.apis, rlImp x = true) ∧
    ((∀ x ∈ g.apis, rlImp x = true) → ∀ x ∈ recoverApi name g.apis, rlImp x = true) := by
  refine ⟨rlImp_isAvail now e, rlImp_hcE now e, rlImp_getActive now f g, ?_, ?_, ?_, ?_⟩
  · exact rlImp_markError now name g
  · intro hl
    exact rlImp_markRL now rt name g.apis hl
  · exact rlImp_resetErrors g.apis
  · exact rlImp_recover name g.apis

theorem C4_witness : rlImp (isApiAvailable 20 eC4x).2 = true :=
  (C4_rate_limit_invariant_oneway 20 false "a" none eC4x gW4).1 (by decide)

/- ------------------------------------------------------------------ -/
/- Lemmas for the mark operations.                                    -/
/- ------------------------------------------------------------------ -/

theorem rotCond_post (now : Nat) (e : APIEndpoint) (h : rotCond now e = true) :
    (isApiAvailable now (isApiAvailable now e).2).1 = true ∨
    (isApiAvailable now e).2.status ≠ APIStatus.ERROR := by
  cases havail : (isApiAvailable now e).1 with
  | true => exact Or.inl (isApiAvailable_post now e havail)
  | false =>
    right
    rw [isApiAvailable_false_eq now e havail]
    unfold rotCond at h
    rw [havail] at h
    simp at h
    exact h

theorem findIdxP_name_none {name : String} {l : List APIEndpoint}
    (h : ∀ e ∈ l, e.name ≠ name) : findIdxP (fun a => a.name == name) l = none :=
  findIdxP_eq_none l (fun a ha => by simp [h a ha])

theorem markApiError_no_match (now : Nat) (name : String) (g : SGroup)
    (h : ∀ e ∈ g.apis, e.name ≠ name) : markApiError now name g = g := by
  unfold markApiError
  rw [findIdxP_name_none h]

theorem markRateLimitedList_no_match (now : Nat) (rt : Option Nat) (name : String) :
    ∀ (l : List APIEndpoint), (∀ e ∈ l, e.name ≠ name) →
      markRateLimitedList now rt name l = l := by
  intro l
  induction l with
  | nil => intro _; rfl
  | cons a l ih =>
    intro h
    rw [markRateLimitedList, if_neg (by simp [h a (List.mem_cons_self a l)]),
      ih (fun e he => h e (List.mem_cons_of_mem a he))]

theorem map_id_of_eq {α : Type} (f : α → α) :
    ∀ (l : List α), (∀ a ∈ l, f a = a) → l.map f = l := by
  intro l
  induction l with
  | nil => intro _; rfl
  | cons a l ih =>
    intro h
    rw [List.map_cons, h a (List.mem_cons_self a l),
      ih (fun b hb => h b (List.mem_cons_of_mem a hb))]

/-- C2 counterexample: marking e1 in the group [e1 ACTIVE, e2 OFFLINE,
e3 ACTIVE] advances the cursor to index 1, the OFFLINE (not available)
sibling, even though the available sibling e3 sits at index 2: the source
condition also accepts any sibling whose status is not ERROR. -/
theorem C2_counterexample :
    (markApiError 0 "e1" gC2).cursor = 1 ∧
    (isApiAvailable 0 ((markApiError 0 "e1" gC2).apis.getD 1 dummyEndpoint)).1 = false ∧
    (isApiAvailable 0 ((markApiError 0 "e1" gC2).apis.getD 2 dummyEndpoint)).1 = true := by
  decide

/-- C2 corrected: after markError finds the endpoint at index i, the cursor
advances to the first forward sibling (offset j, wrapping) satisfying the
source condition: available OR status not ERROR — equivalently, the scan
skips exactly the siblings quarantined as ERROR with error count above 5.
The endpoint then at the cursor is available or not in ERROR status, but it
need not be available (an OFFLINE or still rate-limited sibling also stops
the scan), which is where the claim fails. -/
theorem C2_markError_cursor_advance (now : Nat) (name : String) (g : SGroup)
    (i j : Nat) (api : APIEndpoint)
    (hf : findIdxP (fun a => a.name == name) g.apis = some i)
    (hg : g.apis[i]? = some api)
    (hlen : 1 < g.apis.length)
    (hj1 : 1 ≤ j) (hj2 : j < g.apis.length)
    (hcond : rotCond now
      ((g.apis.set i (markedOf api)).getD ((i + j) % g.apis.length) dummyEndpoint) = true)
    (hfirst : ∀ k, 1 ≤ k → k < j → rotCond now
      ((g.apis.set i (markedOf api)).getD ((i + k) % g.apis.length) dummyEndpoint) = false) :
    (markApiError now name g).cursor = (i + j) % g.apis.length ∧
    ∃ e2, (markApiError now name g).apis[(i + j) % g.apis.length]? = some e2 ∧
      ((isApiAvailable now e2).1 = true ∨ e2.status ≠ APIStatus.ERROR) := by
  have hlen1 : (g.apis.set i (markedOf api)).length = g.apis.length :=
    List.length_set g.apis i (markedOf api)
  have hlen2 : 1 < (g.apis.set i (markedOf api)).length := by rw [hlen1]; exact hlen
  have hfh : firstHit
      (fun k => rotCond now
        ((g.apis.set i (markedOf api)).getD
          ((i + k) % (g.apis.set i (markedOf api)).length) dummyEndpoint))
      (rangeFrom 1 ((g.apis.set i (markedOf api)).length - 1)) = some j := by
    simp only [hlen1]
    exact firstHit_rangeFrom_intro (g.apis.length - 1) 1 j hj1 (by omega) hcond hfirst
  have hscan : scanMark now (g.apis.set i (markedOf api)) i
      = some ((i + j) % g.apis.length) := by
    unfold scanMark
    rw [hfh]
    simp [hlen1]
  have hmod : (i + j) % g.apis.length < (g.apis.set i (markedOf api)).length := by
    rw [hlen1]
    exact Nat.mod_lt _ (by omega)
  have hme : markApiError now name g =
      { g with
        apis := (g.apis.set i (markedOf api)).set ((i + j) % g.apis.length)
          ((isApiAvailable now
            ((g.apis.set i (markedOf api)).getD ((i + j) % g.apis.length) dummyEndpoint)).2),
        cursor := (i + j) % g.apis.length } := by
    unfold markApiError
    simp only [hf, hg]
    rw [if_pos hlen2]
    simp only [hscan]
  rw [hme]
  refine ⟨rfl, ⟨_, List.getElem?_set_self hmod, ?_⟩⟩
  exact rotCond_post now _ hcond

theorem C2_witness : (markApiError 0 "a" gW2).cursor = (0 + 2) % gW2.apis.length :=
  (C2_markError_cursor_advance 0 "a" gW2 0 2 (scnE "a") (by decide) (by decide) (by decide)
    (by decide) (by decide) (by decide)
    (by intro k hk1 hk2; have hk : k = 1 := (by omega); rw [hk]; decide)).1

/-- C9 counterexample: in the just-initialized engine state, markError and
markRateLimited with the service key openrouter (produced by _make_api_call
for an endpoint named openrouter_1, and absent from the self.apis keys)
raise KeyError instead of being a no-op, because mark_api_error and
mark_api_rate_limited index self.apis[service] without a membership check. -/
theorem C9_counterexample :
    glookup initManager.groups "openrouter" = none ∧
    markApiErrorM 0 "openrouter" "openrouter_1" initManager = Except.error () ∧
    markApiRateLimitedM 0 "openrouter" "openrouter_1" none initManager = Except.error () :=
  ⟨by decide, rfl, rfl⟩

/-- C9 corrected: for a registered service group and an endpoint name with no
match inside it, markError and markRateLimited are exception-free no-ops that
leave the whole engine state unchanged; for an unregistered service group
name, however, both operations raise KeyError (see the counterexample), so
the claim holds only for known groups. -/
theorem C9_unknown_name_noop (now : Nat) (service name : String) (rt : Option Nat)
    (m : ManagerState)
    (hk : glookup m.groups service ≠ none)
    (hname : ∀ p ∈ m.groups, p.1 = service → ∀ e ∈ p.2.apis, e.name ≠ name) :
    markApiErrorM now service name m = Except.ok m ∧
    markApiRateLimitedM now service name rt m = Except.ok m := by
  cases hg : glookup m.groups service with
  | none => exact absurd hg hk
  | some g0 =>
    constructor
    · unfold markApiErrorM
      rw [hg]
      have hmap : m.groups.map
          (fun p => if p.1 = service then (p.1, markApiError now name p.2) else p) = m.groups := by
        apply map_id_of_eq
        intro p hp
        by_cases hps : p.1 = service
        · rw [if_pos hps, markApiError_no_match now name p.2 (hname p hp hps)]
        · rw [if_neg hps]
      rw [hmap]
    · unfold markApiRateLimitedM
      rw [hg]
      have hmap : m.groups.map
          (fun p =>
            if p.1 = service then (p.1, { p.2 with apis := markRateLimitedList now rt name p.2.apis })
            else p) = m.groups := by
        apply map_id_of_eq
        intro p hp
        by_cases hps : p.1 = service
        · rw [if_pos hps, markRateLimitedList_no_match now rt name p.2.apis (hname p hp hps)]
        · rw [if_neg hps]
      rw [hmap]

theorem C9_witness :
    markApiErrorM 0 "jina" "jina_99" mW9 = Except.ok mW9 ∧
    markApiRateLimitedM 0 "jina" "jina_99" none mW9 = Except.ok mW9 :=
  C9_unknown_name_noop 0 "jina" "jina_99" none mW9 (by decide) (by decide)

/- ------------------------------------------------------------------ -/
/- Lemmas on the fallback walk.                                       -/
/- ------------------------------------------------------------------ -/

theorem glookup_setGroup_self : ∀ (m : List (String × SGroup)) (s : String) (g g0 : SGroup),
    glookup m s = some g0 → glookup (setGroup m s g) s = some g := by
  intro m
  induction m with
  | nil => intro s g g0 h; cases h
  | cons p rest ih =>
    intro s g g0 h
    simp only [glookup] at h
    by_cases hp : p.1 = s
    · simp only [setGroup, List.map_cons, if_pos hp, glookup]
    · rw [if_neg hp] at h
      simp only [setGroup, List.map_cons, if_neg hp, glookup]
      exact ih s g g0 h

theorem glookup_setGroup_ne : ∀ (m : List (String × SGroup)) (s s2 : String) (g : SGroup),
    s2 ≠ s → glookup (setGroup m s g) s2 = glookup m s2 := by
  intro m
  induction m with
  | nil => intro s s2 g _; rfl
  | cons p rest ih =>
    intro s s2 g hne
    by_cases hp : p.1 = s
    · have hq : ¬p.1 = s2 := by
        rw [hp]
        exact fun hh => hne hh.symm
      simp only [setGroup, List.map_cons, if_pos hp, glookup]
      rw [if_neg hq, if_neg hq]
      exact ih s s2 g hne
    · simp only [setGroup, List.map_cons, if_neg hp, glookup]
      by_cases hq : p.1 = s2
      · rw [if_pos hq, if_pos hq]
      · rw [if_neg hq, if_neg hq]
        exact ih s s2 g hne

theorem getActiveApi_some_mem (now : Nat) (f : Bool) (g : SGroup) (a : APIEndpoint)
    (g2 : SGroup) (h : getActiveApi now f g = (some a, g2)) : a ∈ g2.apis := by
  unfold getActiveApi at h
  by_cases hne : g.apis.isEmpty = true
  · rw [if_pos hne] at h
    injection h with h1 h2
    cases h1
  · rw [if_neg hne] at h
    exact selectFrom_some_mem now _ a g2 h

theorem getActiveApi_fst_some_mem (now : Nat) (f : Bool) (g : SGroup) (a : APIEndpoint)
    (h : (getActiveApi now f g).1 = some a) : a ∈ (getActiveApi now f g).2.apis := by
  have heq : getActiveApi now f g = ((getActiveApi now f g).1, (getActiveApi now f g).2) := rfl
  rw [h] at heq
  exact getActiveApi_some_mem now f g a _ heq

theorem tryService_some_char (now : Nat) (m : ManagerState) (s : String)
    (a : APIEndpoint) (m1 : ManagerState)
    (h : tryService now m s = (some a, m1)) :
    ∃ g, glookup m.groups s = some g ∧
      (getActiveApi now false g).1 = some a ∧
      glookup m1.groups s = some (getActiveApi now false g).2 ∧
      (∀ s2, s2 ≠ s → glookup m1.groups s2 = glookup m.groups s2) := by
  cases hg : glookup m.groups s with
  | none =>
    have ht : tryService now m s = (none, m) := by
      unfold tryService
      rw [hg]
    rw [ht] at h
    injection h with h1 h2
    cases h1
  | some g =>
    have ht : tryService now m s =
        (if g.apis.isEmpty then (none, m)
         else ((getActiveApi now false g).1,
           { m with groups := setGroup m.groups s (getActiveApi now false g).2 })) := by
      unfold tryService
      rw [hg]
    rw [ht] at h
    by_cases he : g.apis.isEmpty = true
    · rw [if_pos he] at h
      injection h with h1 h2
      cases h1
    · rw [if_neg he] at h
      injection h with h1 h2
      refine ⟨g, rfl, h1, ?_, ?_⟩
      · rw [← h2]
        exact glookup_setGroup_self m.groups s _ g hg
      · intro s2 hs2
        rw [← h2]
        exact glookup_setGroup_ne m.groups s s2 _ hs2

theorem tryService_none_char (now : Nat) (m : ManagerState) (s : String) (m1 : ManagerState)
    (h : tryService now m s = (none, m1)) :
    (∀ s2, s2 ≠ s → glookup m1.groups s2 = glookup m.groups s2) ∧
    ((m1 = m ∧ (glookup m.groups s = none ∨ ∃ g, glookup m.groups s = some g ∧ g.apis = [])) ∨
     (∃ g, glookup m.groups s = some g ∧ g.apis ≠ [] ∧
       (getActiveApi now false g).1 = none ∧
       glookup m1.groups s = some (getActiveApi now false g).2)) := by
  cases hg : glookup m.groups s with
  | none =>
    have ht : tryService now m s = (none, m) := by
      unfold tryService
      rw [hg]
    rw [ht] at h
    injection h with h1 h2
    subst h2
    exact ⟨fun s2 _ => rfl, Or.inl ⟨rfl, Or.inl rfl⟩⟩
  | some g =>
    have ht : tryService now m s =
        (if g.apis.isEmpty then (none, m)
         else ((getActiveApi now false g).1,
           { m with groups := setGroup m.groups s (getActiveApi now false g).2 })) := by
      unfold tryService
      rw [hg]
    rw [ht] at h
    by_cases he : g.apis.isEmpty = true
    · rw [if_pos he] at h
      injection h with h1 h2
      subst h2
      exact ⟨fun s2 _ => rfl, Or.inl ⟨rfl, Or.inr ⟨g, rfl, List.isEmpty_iff.mp he⟩⟩⟩
    · rw [if_neg he] at h
      injection h with h1 h2
      refine ⟨?_, Or.inr ⟨g, rfl, fun hh => he (by rw [hh]; rfl), h1, ?_⟩⟩
      · intro s2 hs2
        rw [← h2]
        exact glookup_setGroup_ne m.groups s s2 _ hs2
      · rw [← h2]
        exact glookup_setGroup_self m.groups s _ g hg

/-- C8 confirmed: with a configured chain [[A],[B,C],[D]] for a category,
resolving with failedServiceGroup A starts after the tier containing A, so
the returned endpoint comes from group B, C or D (never A, whose group entry
is left untouched), and an endpoint from D is only returned when every
endpoint of the B group and of the C group was unavailable at that moment
(in the final state, after any in-call health checks).  The tier names are
assumed pairwise distinct as in the configured chains, and the B and C
groups satisfy the reachable-state cursor bound. -/
theorem C8_fallback_skip (now : Nat) (m : ManagerState) (cat A B C D : String)
    (api : APIEndpoint) (m2 : ManagerState)
    (hch : glookup m.chains cat = some [[A], [B, C], [D]])
    (hAB : A ≠ B) (hAC : A ≠ C) (hAD : A ≠ D)
    (hBC : B ≠ C) (hBD : B ≠ D) (hCD : C ≠ D)
    (hcurB : ∀ gb, glookup m.groups B = some gb → gb.apis ≠ [] → gb.cursor < gb.apis.length)
    (hcurC : ∀ gc, glookup m.groups C = some gc → gc.apis ≠ [] → gc.cursor < gc.apis.length)
    (hres : getFallbackApi now cat (some A) m = (some api, m2)) :
    glookup m2.groups A = glookup m.groups A ∧
    ((∃ gb, glookup m2.groups B = some gb ∧ api ∈ gb.apis) ∨
     (∃ gc, glookup m2.groups C = some gc ∧ api ∈ gc.apis) ∨
     ((∃ gd, glookup m2.groups D = some gd ∧ api ∈ gd.apis) ∧
      (∀ gb, glookup m2.groups B = some gb → ∀ e ∈ gb.apis, (isApiAvailable now e).1 = false) ∧
      (∀ gc, glookup m2.groups C = some gc → ∀ e ∈ gc.apis, (isApiAvailable now e).1 = false))) := by
  have hfind : findIdxP (fun tier => tier.contains A) [[A], [B, C], [D]] = some 0 := by
    simp [findIdxP, List.contains_cons]
  have hres2 : tryTiers now m [[B, C], [D]] = (some api, m2) := by
    have ht : getFallbackApi now cat (some A) m = tryTiers now m [[B, C], [D]] := by
      unfold getFallbackApi
      rw [hch]
      simp only [hfind]
      rfl
    rw [← ht]
    exact hres
  rcases hB : tryService now m B with ⟨rb, mb⟩
  cases rb with
  | some ab =>
    -- tier [B, C] succeeds at B
    have hstep : tryTiers now m [[B, C], [D]] = (some ab, mb) := by
      unfold tryTiers
      unfold tryTier
      rw [hB]
    rw [hstep] at hres2
    injection hres2 with h1 h2
    injection h1 with h1
    subst h1
    subst h2
    obtain ⟨g, hgB, hact, hlook, hpres⟩ := tryService_some_char now m B _ _ hB
    refine ⟨hpres A hAB, Or.inl ⟨(getActiveApi now false g).2, hlook, ?_⟩⟩
    exact getActiveApi_fst_some_mem now false g _ hact
  | none =>
    have hb2 : tryTier now m [B, C] = tryTier now mb [C] := by
      unfold tryTier
      rw [hB]
      rfl
    obtain ⟨hpresB, hcaseB⟩ := tryService_none_char now m B mb hB
    rcases hC : tryService now mb C with ⟨rc, mc⟩
    cases rc with
    | some ac =>
      -- tier [B, C] succeeds at C
      have hc2 : tryTier now mb [C] = (some ac, mc) := by
        unfold tryTier
        rw [hC]
      have hstep : tryTiers now m [[B, C], [D]] = (some ac, mc) := by
        unfold tryTiers
        rw [hb2, hc2]
      rw [hstep] at hres2
      injection hres2 with h1 h2
      injection h1 with h1
      subst h1
      subst h2
      obtain ⟨g, hgC, hact, hlook, hpres⟩ := tryService_some_char now mb C _ _ hC
      refine ⟨?_, Or.inr (Or.inl ⟨(getActiveApi now false g).2, hlook, ?_⟩)⟩
      · rw [hpres A hAC]
        exact hpresB A hAB
      · exact getActiveApi_fst_some_mem now false g _ hact
    | none =>
      -- tier [B, C] exhausted; walk moves to tier [D]
      have hc2 : tryTier now mb [C] = (none, mc) := by
        unfold tryTier
        rw [hC]
        rfl
      have hstep1 : tryTiers now m [[B, C], [D]] = tryTiers now mc [[D]] := by
        unfold tryTiers
        rw [hb2, hc2]
        rfl
      rw [hstep1] at hres2
      obtain ⟨hpresC, hcaseC⟩ := tryService_none_char now mb C mc hC
      rcases hD : tryService now mc D with ⟨rd, md⟩
      cases rd with
      | some ad =>
        have hd2 : tryTier now mc [D] = (some ad, md) := by
          unfold tryTier
          rw [hD]
        have hstep2 : tryTiers now mc [[D]] = (some ad, md) := by
          unfold tryTiers
          rw [hd2]
        rw [hstep2] at hres2
        injection hres2 with h1 h2
        injection h1 with h1
        subst h1
        subst h2
        obtain ⟨gD0, hgD, hactD, hlookD, hpresD⟩ := tryService_some_char now mc D _ _ hD
        refine ⟨?_, Or.inr (Or.inr ⟨⟨(getActiveApi now false gD0).2, hlookD, ?_⟩, ?_, ?_⟩)⟩
        · rw [hpresD A hAD, hpresC A hAC]
          exact hpresB A hAB
        · exact getActiveApi_fst_some_mem now false gD0 _ hactD
        · -- every endpoint of the final B group is unavailable
          intro gb hgb
          rw [hpresD B hBD, hpresC B hBC] at hgb
          rcases hcaseB with ⟨hmbm, hsub⟩ | ⟨g0, hg0, hne0, hn1, hlookB⟩
          · subst hmbm
            rcases hsub with hnone | ⟨g1, hg1, hempty⟩
            · rw [hgb] at hnone
              cases hnone
            · rw [hg1] at hgb
              injection hgb with hgb
              subst hgb
              intro e he
              rw [hempty] at he
              cases he
          · rw [hlookB] at hgb
            injection hgb with hgb
            subst hgb
            have heqfull : getActiveApi now false g0 = (none, (getActiveApi now false g0).2) := by
              have hrfl : getActiveApi now false g0 =
                  ((getActiveApi now false g0).1, (getActiveApi now false g0).2) := rfl
              rw [hn1] at hrfl
              exact hrfl
            exact (getActiveApi_none_char now false g0 _ heqfull (hcurB g0 hg0 hne0)).2
        · -- every endpoint of the final C group is unavailable
          intro gc hgc
          rw [hpresD C hCD] at hgc
          rcases hcaseC with ⟨hmcm, hsub⟩ | ⟨g0, hg0, hne0, hn1, hlookC⟩
          · subst hmcm
            rcases hsub with hnone | ⟨g1, hg1, hempty⟩
            · rw [hgc] at hnone
              cases hnone
            · rw [hg1] at hgc
              injection hgc with hgc
              subst hgc
              intro e he
              rw [hempty] at he
              cases he
          · rw [hlookC] at hgc
            injection hgc with hgc
            subst hgc
            have hg0m : glookup m.groups C = some g0 := by
              rw [← hpresB C (Ne.symm hBC)]
              exact hg0
            have heqfull : getActiveApi now false g0 = (none, (getActiveApi now false g0).2) := by
              have hrfl : getActiveApi now false g0 =
                  ((getActiveApi now false g0).1, (getActiveApi now false g0).2) := rfl
              rw [hn1] at hrfl
              exact hrfl
            exact (getActiveApi_none_char now false g0 _ heqfull (hcurC g0 hg0m hne0)).2
      | none =>
        have hd2 : tryTier now mc [D] = (none, md) := by
          unfold tryTier
          rw [hD]
          rfl
        have hstep2 : tryTiers now mc [[D]] = (none, md) := by
          unfold tryTiers
          rw [hd2]
          rfl
        rw [hstep2] at hres2
        injection hres2 with h1 h2
        cases h1

theorem C8_witness : glookup mW8r.groups "a" = glookup mW8.groups "a" :=
  (C8_fallback_skip 100 mW8 "cat" "a" "b" "c" "d" apiW8 mW8r (by decide)
    (by decide) (by decide) (by decide) (by decide) (by decide) (by decide)
    (by intro gb hgb hne; injection hgb with h; rw [← h]; decide)
    (by intro gc hgc hne; injection hgc with h; rw [← h] at hne ⊢; exact absurd rfl hne)
    (by decide)).1
